import Mathlib

/-!
Verification of the natural-language specification of
`src/client/datascience/commands/commandRegistry.ts` (vscode-python data
science command dispatcher) against a shallow embedding of its code.

The class `CommandRegistry` binds command identifiers to handler methods,
delegating to injected collaborators. We embed it as pure Lean functions
over explicit state; every observable collaborator interaction is recorded
as an `Event` in a trace, and thrown exceptions become `Except.error`.
-/

namespace CommandRegistry

/-- Command identifiers registered by `register()`, mirroring the
`Commands` constants referenced in the source (plus `OpenStartPage` from
the core `Commands`). -/
inductive CommandId where
  | RunAllCells
  | RunCell
  | RunCurrentCell
  | RunCurrentCellAdvance
  | ExecSelectionInInteractiveWindow
  | RunAllCellsAbove
  | RunCellAndAllBelow
  | RunAllCellsAbovePalette
  | RunCellAndAllBelowPalette
  | RunToLine
  | RunFromLine
  | RunFileInInteractiveWindows
  | DebugFileInInteractiveWindows
  | AddCellBelow
  | RunCurrentCellAndAddBelow
  | DebugCell
  | DebugStepOver
  | DebugContinue
  | DebugStop
  | DebugCurrentCellPalette
  | CreateNewNotebook
  | ViewJupyterOutput
  | ExportAsPythonScript
  | ExportToHTML
  | ExportToPDF
  | Export
  | GatherQuality
  | EnableLoadingWidgetsFrom3rdPartySource
  | OpenStartPage
deriving DecidableEq, Repr

/-- Names of the handler methods of `CommandRegistry` that `register()`
binds to commands. The TypeScript method `export` is rendered
`exportCommand` because `export` is a Lean keyword. -/
inductive HandlerId where
  | runAllCells
  | runCell
  | runCurrentCell
  | runCurrentCellAndAdvance
  | runSelectionOrLine
  | runAllCellsAbove
  | runCellAndAllBelow
  | runAllCellsAboveFromCursor
  | runCellAndAllBelowFromCursor
  | runToLine
  | runFromLine
  | runFileInteractive
  | debugFileInteractive
  | addCellBelow
  | runCurrentCellAndAddBelow
  | debugCell
  | debugStepOver
  | debugContinue
  | debugStop
  | debugCurrentCellFromCursor
  | createNewNotebook
  | viewJupyterOutput
  | exportAsPythonScript
  | exportToHTML
  | exportToPDF
  | exportCommand
  | reportGatherQuality
  | enableLoadingWidgetScriptsFromThirdParty
  | openStartPage
deriving DecidableEq, Repr

/-- vscode `ConfigurationTarget` values. -/
inductive ConfigTarget where
  | Global
  | Workspace
  | WorkspaceFolder
deriving DecidableEq, Repr

/-- Observable interactions of `CommandRegistry` with its collaborators.
Code watchers and disposables are identified by natural numbers. -/
inductive Event where
  | subRegister (componentName : String)
  | registerCommand (cmd : CommandId) (handler : HandlerId) (disposable : Nat)
  | listenerRegister (listener : Nat)
  | disposeCall (d : Nat)
  | runAllCellsCall (watcher : Nat)
  | runFileInteractiveCall (watcher : Nat)
  | debugFileInteractiveCall (watcher : Nat)
  | executeCommand (cmd : String)
  | sendTelemetryEvent (eventName : String) (result : String)
  | openExternal (url : String)
  | getSettings
  | updateSetting (settingSection : String) (value : List String) (target : ConfigTarget)
  | showInformationMessage (msg : String)
  | showSaveDialog (defaultUri : Option String)
deriving DecidableEq, Repr

/-- Errors thrown by `CommandRegistry` methods. `documentMismatch` models
`new Error(DataScience.documentMismatch().format(file))`. -/
inductive RegError where
  | documentMismatch (file : String)
deriving DecidableEq, Repr

deriving instance DecidableEq for Except

/-- Mutable state of a `CommandRegistry` object: the `disposables` array,
a supply of fresh disposable identities for `registerCommand`, and the
trace of collaborator interactions performed so far. -/
structure MState where
  disposables : List Nat
  nextId : Nat
  trace : List Event
deriving Repr

/-- The disposable identity of the injected `serverSelectedCommand`
object, pushed onto `disposables` by the constructor. -/
def serverSelectedCommandDisposable : Nat := 0

/-- The disposable identity of the injected `kernelSwitcherCommand`
object, pushed onto `disposables` by the constructor. -/
def kernelSwitcherCommandDisposable : Nat := 1

/-- State of a freshly constructed `CommandRegistry`: the constructor
pushes `serverSelectedCommand` and `kernelSwitcherCommand` onto the
`disposables` array. -/
def constructedState : MState :=
  { disposables := [serverSelectedCommandDisposable, kernelSwitcherCommandDisposable]
    nextId := 2
    trace := [] }

/-- Append one collaborator interaction to the trace. -/
def emit (s : MState) (e : Event) : MState :=
  { s with trace := s.trace ++ [e] }

/-- The private `registerCommand` helper: asks the command manager to
register the command (obtaining a fresh disposable) and pushes the
disposable onto the `disposables` array. -/
def registerCommand (cmd : CommandId) (handler : HandlerId) (s : MState) : MState :=
  { disposables := s.disposables ++ [s.nextId]
    nextId := s.nextId + 1
    trace := s.trace ++ [Event.registerCommand cmd handler s.nextId] }

/-- The `register()` method: registers the three sub-command objects, then
each command through `registerCommand`, then lets each command listener
register itself (the `commandListeners` collaborator is optional:
`Option (List Nat)`). The sequence mirrors the source line by line. -/
def register (commandListeners : Option (List Nat)) (s : MState) : MState :=
  let s := emit s (Event.subRegister "commandLineCommand")
  let s := emit s (Event.subRegister "serverSelectedCommand")
  let s := emit s (Event.subRegister "kernelSwitcherCommand")
  let s := registerCommand CommandId.RunAllCells HandlerId.runAllCells s
  let s := registerCommand CommandId.RunCell HandlerId.runCell s
  let s := registerCommand CommandId.RunCurrentCell HandlerId.runCurrentCell s
  let s := registerCommand CommandId.RunCurrentCellAdvance HandlerId.runCurrentCellAndAdvance s
  let s := registerCommand CommandId.ExecSelectionInInteractiveWindow HandlerId.runSelectionOrLine s
  let s := registerCommand CommandId.RunAllCellsAbove HandlerId.runAllCellsAbove s
  let s := registerCommand CommandId.RunCellAndAllBelow HandlerId.runCellAndAllBelow s
  let s := registerCommand CommandId.RunAllCellsAbovePalette HandlerId.runAllCellsAboveFromCursor s
  let s := registerCommand CommandId.RunCellAndAllBelowPalette HandlerId.runCellAndAllBelowFromCursor s
  let s := registerCommand CommandId.RunToLine HandlerId.runToLine s
  let s := registerCommand CommandId.RunFromLine HandlerId.runFromLine s
  let s := registerCommand CommandId.RunFileInInteractiveWindows HandlerId.runFileInteractive s
  let s := registerCommand CommandId.DebugFileInInteractiveWindows HandlerId.debugFileInteractive s
  let s := registerCommand CommandId.AddCellBelow HandlerId.addCellBelow s
  let s := registerCommand CommandId.RunCurrentCellAndAddBelow HandlerId.runCurrentCellAndAddBelow s
  let s := registerCommand CommandId.DebugCell HandlerId.debugCell s
  let s := registerCommand CommandId.DebugStepOver HandlerId.debugStepOver s
  let s := registerCommand CommandId.DebugContinue HandlerId.debugContinue s
  let s := registerCommand CommandId.DebugStop HandlerId.debugStop s
  let s := registerCommand CommandId.DebugCurrentCellPalette HandlerId.debugCurrentCellFromCursor s
  let s := registerCommand CommandId.CreateNewNotebook HandlerId.createNewNotebook s
  let s := registerCommand CommandId.ViewJupyterOutput HandlerId.viewJupyterOutput s
  let s := registerCommand CommandId.ExportAsPythonScript HandlerId.exportAsPythonScript s
  let s := registerCommand CommandId.ExportToHTML HandlerId.exportToHTML s
  let s := registerCommand CommandId.ExportToPDF HandlerId.exportToPDF s
  let s := registerCommand CommandId.Export HandlerId.exportCommand s
  let s := registerCommand CommandId.GatherQuality HandlerId.reportGatherQuality s
  let s := registerCommand CommandId.EnableLoadingWidgetsFrom3rdPartySource HandlerId.enableLoadingWidgetScriptsFromThirdParty s
  let s := registerCommand CommandId.OpenStartPage HandlerId.openStartPage s
  match commandListeners with
  | none => s
  | some listeners => { s with trace := s.trace ++ listeners.map Event.listenerRegister }

/-- The `dispose()` method: calls `dispose` on each element of the
`disposables` array, in order. -/
def dispose (s : MState) : List Event :=
  s.disposables.map Event.disposeCall

/-- Extract the (command, handler) pair of a `registerCommand` event. -/
def commandPairOf (e : Event) : Option (CommandId × HandlerId) :=
  match e with
  | Event.registerCommand c h _ => some (c, h)
  | _ => none

/-- All (command, handler) pairs registered through `registerCommand` in a
trace, in order. -/
def registeredCommandPairs (s : MState) : List (CommandId × HandlerId) :=
  s.trace.filterMap commandPairOf

/-- Extract the disposable of a `registerCommand` event. -/
def commandDisposableOf (e : Event) : Option Nat :=
  match e with
  | Event.registerCommand _ _ d => some d
  | _ => none

/-- All disposables produced by `registerCommand` calls in a trace. -/
def registrationDisposables (s : MState) : List Nat :=
  s.trace.filterMap commandDisposableOf

/-- The fixed command table of `register()`, in registration order. -/
def commandTable : List (CommandId × HandlerId) :=
  [ (CommandId.RunAllCells, HandlerId.runAllCells),
    (CommandId.RunCell, HandlerId.runCell),
    (CommandId.RunCurrentCell, HandlerId.runCurrentCell),
    (CommandId.RunCurrentCellAdvance, HandlerId.runCurrentCellAndAdvance),
    (CommandId.ExecSelectionInInteractiveWindow, HandlerId.runSelectionOrLine),
    (CommandId.RunAllCellsAbove, HandlerId.runAllCellsAbove),
    (CommandId.RunCellAndAllBelow, HandlerId.runCellAndAllBelow),
    (CommandId.RunAllCellsAbovePalette, HandlerId.runAllCellsAboveFromCursor),
    (CommandId.RunCellAndAllBelowPalette, HandlerId.runCellAndAllBelowFromCursor),
    (CommandId.RunToLine, HandlerId.runToLine),
    (CommandId.RunFromLine, HandlerId.runFromLine),
    (CommandId.RunFileInInteractiveWindows, HandlerId.runFileInteractive),
    (CommandId.DebugFileInInteractiveWindows, HandlerId.debugFileInteractive),
    (CommandId.AddCellBelow, HandlerId.addCellBelow),
    (CommandId.RunCurrentCellAndAddBelow, HandlerId.runCurrentCellAndAddBelow),
    (CommandId.DebugCell, HandlerId.debugCell),
    (CommandId.DebugStepOver, HandlerId.debugStepOver),
    (CommandId.DebugContinue, HandlerId.debugContinue),
    (CommandId.DebugStop, HandlerId.debugStop),
    (CommandId.DebugCurrentCellPalette, HandlerId.debugCurrentCellFromCursor),
    (CommandId.CreateNewNotebook, HandlerId.createNewNotebook),
    (CommandId.ViewJupyterOutput, HandlerId.viewJupyterOutput),
    (CommandId.ExportAsPythonScript, HandlerId.exportAsPythonScript),
    (CommandId.ExportToHTML, HandlerId.exportToHTML),
    (CommandId.ExportToPDF, HandlerId.exportToPDF),
    (CommandId.Export, HandlerId.exportCommand),
    (CommandId.GatherQuality, HandlerId.reportGatherQuality),
    (CommandId.EnableLoadingWidgetsFrom3rdPartySource, HandlerId.enableLoadingWidgetScriptsFromThirdParty),
    (CommandId.OpenStartPage, HandlerId.openStartPage) ]

/-- An open text document, identified by its `fileName`. -/
structure TextDocument where
  fileName : String
deriving DecidableEq, Repr

/-- A text editor; the source guards on `activeEditor.document`, so the
document is modelled as optional. -/
structure TextEditor where
  document : Option TextDocument
deriving DecidableEq, Repr

/-- The collaborators consulted by the document-lookup helpers: the
document manager (open documents and active editor) and the code-lens
provider, which maps a document to its code watcher (or none). -/
structure DocState where
  textDocuments : List TextDocument
  activeTextEditor : Option TextEditor
  codeWatcherOf : TextDocument → Option Nat

/-- The private `getCodeWatcher(file)` helper: filters the open documents
by file name; with exactly one match it asks the code-lens provider for
that document's watcher, with more than one match it throws a
document-mismatch error, otherwise it returns undefined. -/
def getCodeWatcher (s : DocState) (file : String) : Except RegError (Option Nat) :=
  let possibleDocuments := s.textDocuments.filter (fun d => d.fileName == file)
  if h : possibleDocuments.length = 1 then
    Except.ok (s.codeWatcherOf (possibleDocuments.get ⟨0, by omega⟩))
  else if 1 < possibleDocuments.length then
    Except.error (RegError.documentMismatch file)
  else
    Except.ok none

/-- The private `getCurrentCodeWatcher()` helper: the watcher of the
active editor's document, or none when there is no active editor or no
document. -/
def getCurrentCodeWatcher (s : DocState) : Option Nat :=
  match s.activeTextEditor with
  | none => none
  | some activeEditor =>
    match activeEditor.document with
    | none => none
    | some doc => s.codeWatcherOf doc

/-- The `runAllCells(file)` handler: looks the watcher up by file name,
falls back to the current watcher, then delegates `runAllCells()` to it;
resolves with no delegated call when neither watcher exists. -/
def runAllCells (s : DocState) (file : String) : Except RegError (List Event) :=
  match getCodeWatcher s file with
  | Except.error e => Except.error e
  | Except.ok first =>
    let codeWatcher := match first with
      | some w => some w
      | none => getCurrentCodeWatcher s
    match codeWatcher with
    | some w => Except.ok [Event.runAllCellsCall w]
    | none => Except.ok []

/-- The `runFileInteractive(file)` handler, with the same lookup and
fallback as `runAllCells`, delegating `runFileInteractive()`. -/
def runFileInteractive (s : DocState) (file : String) : Except RegError (List Event) :=
  match getCodeWatcher s file with
  | Except.error e => Except.error e
  | Except.ok first =>
    let codeWatcher := match first with
      | some w => some w
      | none => getCurrentCodeWatcher s
    match codeWatcher with
    | some w => Except.ok [Event.runFileInteractiveCall w]
    | none => Except.ok []

/-- The `debugFileInteractive(file)` handler, with the same lookup and
fallback as `runAllCells`, delegating `debugFileInteractive()`. -/
def debugFileInteractive (s : DocState) (file : String) : Except RegError (List Event) :=
  match getCodeWatcher s file with
  | Except.error e => Except.error e
  | Except.ok first =>
    let codeWatcher := match first with
      | some w => some w
      | none => getCurrentCodeWatcher s
    match codeWatcher with
    | some w => Except.ok [Event.debugFileInteractiveCall w]
    | none => Except.ok []

/-- The debug service collaborator: `activeDebugSession` is the current
debug session, if any. -/
structure DebugState where
  activeDebugSession : Option Nat
deriving DecidableEq, Repr

/-- The `debugStepOver()` handler: executes the workbench step-over
command only when a debug session is active. -/
def debugStepOver (s : DebugState) : List Event :=
  match s.activeDebugSession with
  | some _ => [Event.executeCommand "workbench.action.debug.stepOver"]
  | none => []

/-- The `debugStop()` handler: executes the workbench stop command only
when a debug session is active. -/
def debugStop (s : DebugState) : List Event :=
  match s.activeDebugSession with
  | some _ => [Event.executeCommand "workbench.action.debug.stop"]
  | none => []

/-- The `debugContinue()` handler: executes the workbench continue
command only when a debug session is active. -/
def debugContinue (s : DebugState) : List Event :=
  match s.activeDebugSession with
  | some _ => [Event.executeCommand "workbench.action.debug.continue"]
  | none => []

/-- The `reportGatherQuality(val)` handler: sends one GatherQualityReport
telemetry event and opens the gather survey URL built from `val`. -/
def reportGatherQuality (val : String) : List Event :=
  [ Event.sendTelemetryEvent "GatherQualityReport" (if val == "no" then "no" else "yes"),
    Event.openExternal ("https://aka.ms/gathersurvey?succeed=" ++ val) ]

/-- The configuration setting key read and written by
`enableLoadingWidgetScriptsFromThirdParty`. -/
def widgetScriptSourcesKey : String := "dataScience.widgetScriptSources"

/-- The message shown after enabling third-party widget script sources,
`DataScience.loadThirdPartyWidgetScriptsPostEnabled()` (localized string
defined outside this file). -/
def loadThirdPartyWidgetScriptsPostEnabledMsg : String :=
  "loadThirdPartyWidgetScriptsPostEnabled"

/-- The configuration service collaborator: a map from setting keys to
string-list values. -/
structure ConfigState where
  settings : String → List String

/-- The `enableLoadingWidgetScriptsFromThirdParty()` handler: reads the
current `widgetScriptSources` setting and returns at once when it is
non-empty; otherwise updates that one setting to
jsdelivr.com / unpkg.com at the global target and then shows an
information message. Returns the new configuration and the trace. -/
def enableLoadingWidgetScriptsFromThirdParty (c : ConfigState) : ConfigState × List Event :=
  if (c.settings widgetScriptSourcesKey).length > 0 then
    (c, [Event.getSettings])
  else
    ( { settings := fun k =>
          if k == widgetScriptSourcesKey then ["jsdelivr.com", "unpkg.com"] else c.settings k },
      [ Event.getSettings,
        Event.updateSetting widgetScriptSourcesKey ["jsdelivr.com", "unpkg.com"] ConfigTarget.Global,
        Event.showInformationMessage loadThirdPartyWidgetScriptsPostEnabledMsg ] )

/-- An open notebook editor, as seen through `notebookEditorProvider`. -/
structure NotebookEditor where
  file : Option String
  isUntitled : Bool
  isDirty : Bool
deriving DecidableEq, Repr

/-- State consulted by `getFileSaveLocation`: the active notebook editor
and the URI the user would pick in the save dialog. -/
structure ShellState where
  activeEditor : Option NotebookEditor
  saveDialogResult : Option String
deriving DecidableEq, Repr

/-- The `getFileSaveLocation()` method: shows a save dialog whose default
URI is the active editor's file; the URI the dialog resolves with is only
returned inside the un-awaited `then` callback, and the method itself
returns undefined. -/
def getFileSaveLocation (s : ShellState) : Option String × List Event :=
  let file := match s.activeEditor with
    | some activeEditor => activeEditor.file
    | none => none
  let thenCallbackResult := s.saveDialogResult
  let _ := thenCallbackResult
  (none, [Event.showSaveDialog file])

/-- The `exportAsPythonScript()` handler, whose body is empty. -/
def exportAsPythonScript : List Event := []

/-- The `exportToHTML()` handler, whose body is empty. -/
def exportToHTML : List Event := []

/-- The `exportToPDF()` handler, whose body is empty. -/
def exportToPDF : List Event := []

/-- A quick-pick item of the export menu; `handler` is the trace of the
delegated calls its handler performs when selected. -/
structure ExportQuickPickItem where
  label : String
  picked : Bool
  handler : List Event
deriving DecidableEq, Repr

/-- The `getExportQuickPickItems()` method: the three export menu items
with their handlers. -/
def getExportQuickPickItems : List ExportQuickPickItem :=
  [ { label := "Python Script", picked := true, handler := exportAsPythonScript },
    { label := "HTML", picked := false, handler := exportToHTML },
    { label := "PDF", picked := false, handler := exportToPDF } ]

/-- Is an event the sending of a GatherQualityReport telemetry event? -/
def isGatherQualityReportEvent (e : Event) : Bool :=
  match e with
  | Event.sendTelemetryEvent eventName _ => eventName == "GatherQualityReport"
  | _ => false

/-- A sample open document used to evaluate the lookup helpers. -/
def sampleDoc : TextDocument := TextDocument.mk "a.py"

/-- A document-manager state with exactly one open document named a.py,
whose code watcher is watcher 7, and no active editor. -/
def oneDocState : DocState := DocState.mk [sampleDoc] none (fun _ => some 7)

/-- A document-manager state with no open document and no active editor. -/
def noDocState : DocState := DocState.mk [] none (fun _ => some 7)

/-- A document-manager state in which two open documents share the file
name dup.py, no document has a code watcher, and no editor is active. -/
def dupDocState : DocState :=
  DocState.mk [TextDocument.mk "dup.py", TextDocument.mk "dup.py"] none (fun _ => none)

/-- A configuration in which every setting, in particular
`widgetScriptSources`, is the empty list. -/
def emptyWidgetConfig : ConfigState := ConfigState.mk (fun _ => [])

/-- A configuration in which every setting, in particular
`widgetScriptSources`, is already non-empty. -/
def populatedWidgetConfig : ConfigState := ConfigState.mk (fun _ => ["unpkg.com"])

theorem filterMap_commandPairOf_listeners (ls : List Nat) :
    (ls.map Event.listenerRegister).filterMap commandPairOf = [] := by
  induction ls with
  | nil => rfl
  | cons x xs ih => simp [List.filterMap_cons, commandPairOf, ih]

theorem filterMap_commandDisposableOf_listeners (ls : List Nat) :
    (ls.map Event.listenerRegister).filterMap commandDisposableOf = [] := by
  induction ls with
  | nil => rfl
  | cons x xs ih => simp [List.filterMap_cons, commandDisposableOf, ih]

theorem register_disposables (cl : Option (List Nat)) :
    (register cl constructedState).disposables =
      [0, 1, 2, 3, 4, 5, 6, 7, 8, 9, 10, 11, 12, 13, 14, 15, 16, 17, 18, 19,
       20, 21, 22, 23, 24, 25, 26, 27, 28, 29, 30] := by
  rcases cl with _ | ls <;> rfl

theorem register_regDisposables (cl : Option (List Nat)) :
    registrationDisposables (register cl constructedState) =
      [2, 3, 4, 5, 6, 7, 8, 9, 10, 11, 12, 13, 14, 15, 16, 17, 18, 19,
       20, 21, 22, 23, 24, 25, 26, 27, 28, 29, 30] := by
  rcases cl with _ | ls
  · rfl
  · simp only [registrationDisposables, register, registerCommand, emit, constructedState]
    rw [List.filterMap_append, filterMap_commandDisposableOf_listeners, List.append_nil]
    rfl

/-- C1: `register()` registers, through `commandManager.registerCommand`,
exactly the fixed set of command identifiers listed in the file, each
bound to its corresponding handler method, and no other command goes
through `registerCommand`. -/
theorem register_registers_fixed_commands (commandListeners : Option (List Nat)) :
    registeredCommandPairs (register commandListeners constructedState) = commandTable := by
  rcases commandListeners with _ | ls
  · rfl
  · simp only [registeredCommandPairs, register, registerCommand, emit, constructedState]
    rw [List.filterMap_append, filterMap_commandPairOf_listeners, List.append_nil]
    rfl

/-- C10: every disposable obtained during the object's lifetime — the two
command objects pushed by the constructor plus one disposable per
`registerCommand` call made by `register()` — ends up in the `disposables`
array, and `dispose()` calls `dispose` exactly once on each element of
that array. -/
theorem commandRegistry_disposal (commandListeners : Option (List Nat)) :
    (register commandListeners constructedState).disposables =
        serverSelectedCommandDisposable :: kernelSwitcherCommandDisposable ::
          registrationDisposables (register commandListeners constructedState) ∧
    (registrationDisposables (register commandListeners constructedState)).length = 29 ∧
    (register commandListeners constructedState).disposables.Nodup ∧
    (∀ d ∈ (register commandListeners constructedState).disposables,
        (dispose (register commandListeners constructedState)).count (Event.disposeCall d) = 1) := by
  refine ⟨?_, ?_, ?_, ?_⟩
  · rw [register_disposables, register_regDisposables]; rfl
  · rw [register_regDisposables]; rfl
  · rw [register_disposables]; decide
  · simp only [dispose]
    rw [register_disposables]
    decide

/-- Witness for C10 at a concrete lifetime with no command listeners. -/
theorem commandRegistry_disposal_witness :
    serverSelectedCommandDisposable ∈ (register none constructedState).disposables ∧
    (dispose (register none constructedState)).count
        (Event.disposeCall serverSelectedCommandDisposable) = 1 :=
  ⟨by decide, (commandRegistry_disposal none).2.2.2 serverSelectedCommandDisposable (by decide)⟩

/-- C2 counterexample: the handler
`enableLoadingWidgetScriptsFromThirdParty`, which `register()` binds to
the `EnableLoadingWidgetsFrom3rdPartySource` command, performs three
collaborator calls (settings read, setting update, information message)
when the widget script source list is empty — more than the single
delegated call the claim allows every bound handler. -/
theorem handler_single_call_counterexample :
    (CommandId.EnableLoadingWidgetsFrom3rdPartySource,
        HandlerId.enableLoadingWidgetScriptsFromThirdParty) ∈
      registeredCommandPairs (register none constructedState) ∧
    (enableLoadingWidgetScriptsFromThirdParty emptyWidgetConfig).2.length = 3 ∧
    ¬ (enableLoadingWidgetScriptsFromThirdParty emptyWidgetConfig).2.length ≤ 1 := by
  refine ⟨by decide, rfl, by decide⟩

/-- C2 (amended): handlers bound by `register()` are not limited to one
delegated call: `enableLoadingWidgetScriptsFromThirdParty` performs three
collaborator calls (settings read, setting update, information message)
when the current widget script source list is empty, and one (the
settings read) when it is non-empty. -/
theorem enableLoadingWidgetScripts_call_count (c : ConfigState) :
    ((c.settings widgetScriptSourcesKey).length = 0 →
      (enableLoadingWidgetScriptsFromThirdParty c).2.length = 3) ∧
    (0 < (c.settings widgetScriptSourcesKey).length →
      (enableLoadingWidgetScriptsFromThirdParty c).2.length = 1) := by
  constructor
  · intro h
    simp [enableLoadingWidgetScriptsFromThirdParty, h]
  · intro h
    simp [enableLoadingWidgetScriptsFromThirdParty, h]

/-- Witness for the amended C2 at two concrete configurations. -/
theorem enableLoadingWidgetScripts_call_count_witness :
    (enableLoadingWidgetScriptsFromThirdParty emptyWidgetConfig).2.length = 3 ∧
    (enableLoadingWidgetScriptsFromThirdParty populatedWidgetConfig).2.length = 1 :=
  ⟨(enableLoadingWidgetScripts_call_count emptyWidgetConfig).1 rfl,
   (enableLoadingWidgetScripts_call_count populatedWidgetConfig).2 (by decide)⟩

/-- C5: each of `debugStepOver`, `debugStop` and `debugContinue` executes
its corresponding workbench debug command exactly when
`debugService.activeDebugSession` is non-null, and returns without
executing any command when there is no active debug session. -/
theorem debug_commands_require_active_session (s : DebugState) :
    (s.activeDebugSession.isSome →
      debugStepOver s = [Event.executeCommand "workbench.action.debug.stepOver"] ∧
      debugStop s = [Event.executeCommand "workbench.action.debug.stop"] ∧
      debugContinue s = [Event.executeCommand "workbench.action.debug.continue"]) ∧
    (s.activeDebugSession = none →
      debugStepOver s = [] ∧ debugStop s = [] ∧ debugContinue s = []) := by
  cases hs : s.activeDebugSession with
  | none =>
    refine ⟨?_, ?_⟩
    · intro hsome
      simp at hsome
    · intro _
      exact ⟨by simp [debugStepOver, hs], by simp [debugStop, hs], by simp [debugContinue, hs]⟩
  | some sess =>
    refine ⟨?_, ?_⟩
    · intro _
      exact ⟨by simp [debugStepOver, hs], by simp [debugStop, hs], by simp [debugContinue, hs]⟩
    · intro hnone
      simp at hnone

/-- Witness for C5 with an active session and with none. -/
theorem debug_commands_require_active_session_witness :
    debugStepOver (DebugState.mk (some 0)) =
        [Event.executeCommand "workbench.action.debug.stepOver"] ∧
    debugStop (DebugState.mk none) = [] :=
  ⟨((debug_commands_require_active_session (DebugState.mk (some 0))).1 (by decide)).1,
   ((debug_commands_require_active_session (DebugState.mk none)).2 rfl).2.1⟩

/-- C6: for every string `val`, `reportGatherQuality` sends exactly one
GatherQualityReport telemetry event whose result is no when `val` is no
and yes otherwise, and then opens the gather survey URL ending in
`val`. -/
theorem reportGatherQuality_events (val : String) :
    (val = "no" →
      reportGatherQuality val =
        [ Event.sendTelemetryEvent "GatherQualityReport" "no",
          Event.openExternal ("https://aka.ms/gathersurvey?succeed=" ++ val) ]) ∧
    (val ≠ "no" →
      reportGatherQuality val =
        [ Event.sendTelemetryEvent "GatherQualityReport" "yes",
          Event.openExternal ("https://aka.ms/gathersurvey?succeed=" ++ val) ]) ∧
    (reportGatherQuality val).countP (fun e => isGatherQualityReportEvent e) = 1 := by
  refine ⟨?_, ?_, ?_⟩
  · intro h
    simp [reportGatherQuality, h]
  · intro h
    have hb : (val == "no") = false := beq_eq_false_iff_ne.mpr h
    simp [reportGatherQuality, hb]
  · simp [reportGatherQuality, isGatherQualityReportEvent, List.countP_cons]

/-- Witness for C6 at the inputs no and broke. -/
theorem reportGatherQuality_events_witness :
    reportGatherQuality "no" =
        [ Event.sendTelemetryEvent "GatherQualityReport" "no",
          Event.openExternal ("https://aka.ms/gathersurvey?succeed=" ++ "no") ] ∧
    reportGatherQuality "broke" =
        [ Event.sendTelemetryEvent "GatherQualityReport" "yes",
          Event.openExternal ("https://aka.ms/gathersurvey?succeed=" ++ "broke") ] :=
  ⟨(reportGatherQuality_events "no").1 rfl,
   ((reportGatherQuality_events "broke").2).1 (by decide)⟩

theorem getCodeWatcher_eq (s : DocState) (file : String) :
    getCodeWatcher s file =
      match s.textDocuments.filter (fun d => d.fileName == file) with
      | [] => Except.ok none
      | [d] => Except.ok (s.codeWatcherOf d)
      | _ :: _ :: _ => Except.error (RegError.documentMismatch file) := by
  unfold getCodeWatcher
  rcases hf : s.textDocuments.filter (fun d => d.fileName == file) with _ | ⟨d, _ | ⟨d2, rest⟩⟩
  · simp [hf]
  · simp [hf]
  · simp [hf]

/-- C3: `getCodeWatcher` returns the code watcher of the unique open text
document whose file name equals the argument when exactly one such
document is open, returns undefined when no open document matches, and
throws a document-mismatch error when more than one open document
matches. -/
theorem getCodeWatcher_filename_lookup (s : DocState) (file : String) :
    (∀ d, s.textDocuments.filter (fun x => x.fileName == file) = [d] →
        getCodeWatcher s file = Except.ok (s.codeWatcherOf d)) ∧
    (s.textDocuments.filter (fun x => x.fileName == file) = [] →
        getCodeWatcher s file = Except.ok none) ∧
    (1 < (s.textDocuments.filter (fun x => x.fileName == file)).length →
        getCodeWatcher s file = Except.error (RegError.documentMismatch file)) := by
  refine ⟨?_, ?_, ?_⟩
  · intro d hd
    rw [getCodeWatcher_eq, hd]
  · intro hd
    rw [getCodeWatcher_eq, hd]
  · intro hlen
    rcases hf : s.textDocuments.filter (fun x => x.fileName == file) with _ | ⟨a, _ | ⟨b, r⟩⟩
    · rw [hf] at hlen
      simp at hlen
    · rw [hf] at hlen
      simp at hlen
    · rw [getCodeWatcher_eq, hf]

/-- Witness for C3: a unique match, no match, and a duplicated match. -/
theorem getCodeWatcher_filename_lookup_witness :
    getCodeWatcher oneDocState "a.py" = Except.ok (some 7) ∧
    getCodeWatcher noDocState "a.py" = Except.ok none ∧
    getCodeWatcher dupDocState "dup.py" = Except.error (RegError.documentMismatch "dup.py") :=
  ⟨(getCodeWatcher_filename_lookup oneDocState "a.py").1 sampleDoc (by decide),
   (getCodeWatcher_filename_lookup noDocState "a.py").2.1 rfl,
   (getCodeWatcher_filename_lookup dupDocState "dup.py").2.2 (by decide)⟩

/-- C4 counterexample: with two open documents both named dup.py, no code
watchers and no active editor, neither the filename lookup nor the active
editor yields a watcher, yet `runAllCells` does not resolve successfully
without a delegated call — it fails with the document-mismatch error the
lookup throws. -/
theorem runAllCells_mismatch_counterexample :
    getCurrentCodeWatcher dupDocState = none ∧
    runAllCells dupDocState "dup.py" = Except.error (RegError.documentMismatch "dup.py") ∧
    runAllCells dupDocState "dup.py" ≠ Except.ok [] := by
  refine ⟨rfl, by decide, by decide⟩

/-- C4 (amended): when at most one open document matches the file name,
each of `runAllCells`, `runFileInteractive` and `debugFileInteractive`
delegates to the code watcher found by filename lookup when one exists,
otherwise falls back to the code watcher of the active editor's document,
and when neither exists resolves successfully without any delegated call;
when the lookup throws (more than one open document matches), each
handler propagates the document-mismatch error without any delegated
call; in each case the only delegated call is the correspondingly named
code-watcher method. -/
theorem runFile_handlers_delegation (s : DocState) (file : String) :
    (∀ w, getCodeWatcher s file = Except.ok (some w) →
        runAllCells s file = Except.ok [Event.runAllCellsCall w] ∧
        runFileInteractive s file = Except.ok [Event.runFileInteractiveCall w] ∧
        debugFileInteractive s file = Except.ok [Event.debugFileInteractiveCall w]) ∧
    (∀ w, getCodeWatcher s file = Except.ok none → getCurrentCodeWatcher s = some w →
        runAllCells s file = Except.ok [Event.runAllCellsCall w] ∧
        runFileInteractive s file = Except.ok [Event.runFileInteractiveCall w] ∧
        debugFileInteractive s file = Except.ok [Event.debugFileInteractiveCall w]) ∧
    (getCodeWatcher s file = Except.ok none → getCurrentCodeWatcher s = none →
        runAllCells s file = Except.ok [] ∧
        runFileInteractive s file = Except.ok [] ∧
        debugFileInteractive s file = Except.ok []) ∧
    (∀ e, getCodeWatcher s file = Except.error e →
        runAllCells s file = Except.error e ∧
        runFileInteractive s file = Except.error e ∧
        debugFileInteractive s file = Except.error e) := by
  refine ⟨?_, ?_, ?_, ?_⟩
  · intro w hw
    exact ⟨by simp [runAllCells, hw], by simp [runFileInteractive, hw],
      by simp [debugFileInteractive, hw]⟩
  · intro w hw hcur
    exact ⟨by simp [runAllCells, hw, hcur], by simp [runFileInteractive, hw, hcur],
      by simp [debugFileInteractive, hw, hcur]⟩
  · intro hw hcur
    exact ⟨by simp [runAllCells, hw, hcur], by simp [runFileInteractive, hw, hcur],
      by simp [debugFileInteractive, hw, hcur]⟩
  · intro e hw
    exact ⟨by simp [runAllCells, hw], by simp [runFileInteractive, hw],
      by simp [debugFileInteractive, hw]⟩

/-- Witness for the amended C4: lookup hit, double fallback miss, and
lookup error, at concrete states. -/
theorem runFile_handlers_delegation_witness :
    runAllCells oneDocState "a.py" = Except.ok [Event.runAllCellsCall 7] ∧
    runFileInteractive noDocState "a.py" = Except.ok [] ∧
    debugFileInteractive dupDocState "dup.py" =
      Except.error (RegError.documentMismatch "dup.py") :=
  ⟨((runFile_handlers_delegation oneDocState "a.py").1 7 (by decide)).1,
   ((runFile_handlers_delegation noDocState "a.py").2.2.1 (by decide) rfl).2.1,
   ((runFile_handlers_delegation dupDocState "dup.py").2.2.2
      (RegError.documentMismatch "dup.py") (by decide)).2.2⟩

/-- C7: when the current `widgetScriptSources` list is non-empty,
`enableLoadingWidgetScriptsFromThirdParty` returns at once, updating no
setting and showing no message; only when that list is empty does it
update the single setting `dataScience.widgetScriptSources` to
jsdelivr.com / unpkg.com at the global target and then show an
information message, leaving all other settings unchanged. -/
theorem enableLoadingWidgetScripts_frame (c : ConfigState) :
    (0 < (c.settings widgetScriptSourcesKey).length →
      (enableLoadingWidgetScriptsFromThirdParty c).1 = c ∧
      (enableLoadingWidgetScriptsFromThirdParty c).2 = [Event.getSettings]) ∧
    ((c.settings widgetScriptSourcesKey).length = 0 →
      ((enableLoadingWidgetScriptsFromThirdParty c).1).settings widgetScriptSourcesKey =
          ["jsdelivr.com", "unpkg.com"] ∧
      (∀ k, k ≠ widgetScriptSourcesKey →
          ((enableLoadingWidgetScriptsFromThirdParty c).1).settings k = c.settings k) ∧
      (enableLoadingWidgetScriptsFromThirdParty c).2 =
        [ Event.getSettings,
          Event.updateSetting widgetScriptSourcesKey ["jsdelivr.com", "unpkg.com"]
            ConfigTarget.Global,
          Event.showInformationMessage loadThirdPartyWidgetScriptsPostEnabledMsg ]) := by
  constructor
  · intro h
    unfold enableLoadingWidgetScriptsFromThirdParty
    rw [if_pos h]
    exact ⟨rfl, rfl⟩
  · intro h
    unfold enableLoadingWidgetScriptsFromThirdParty
    rw [if_neg (by omega)]
    refine ⟨by simp, ?_, rfl⟩
    intro k hk
    have hb : (k == widgetScriptSourcesKey) = false := beq_eq_false_iff_ne.mpr hk
    simp [hb]

/-- Witness for C7 at an empty and a populated configuration. -/
theorem enableLoadingWidgetScripts_frame_witness :
    ((enableLoadingWidgetScriptsFromThirdParty emptyWidgetConfig).1).settings
        widgetScriptSourcesKey = ["jsdelivr.com", "unpkg.com"] ∧
    ((enableLoadingWidgetScriptsFromThirdParty emptyWidgetConfig).1).settings
        "other.setting" = [] ∧
    (enableLoadingWidgetScriptsFromThirdParty populatedWidgetConfig).2 =
        [Event.getSettings] :=
  ⟨((enableLoadingWidgetScripts_frame emptyWidgetConfig).2 rfl).1,
   ((enableLoadingWidgetScripts_frame emptyWidgetConfig).2 rfl).2.1 "other.setting" (by decide),
   ((enableLoadingWidgetScripts_frame populatedWidgetConfig).1 (by decide)).2⟩

/-- C8: `getFileSaveLocation` returns undefined for every input state:
the URI chosen by the user in the save dialog is discarded, so any caller
always receives undefined regardless of what the user picks. -/
theorem getFileSaveLocation_always_undefined (s : ShellState) :
    (getFileSaveLocation s).1 = none ∧
    (∀ choice, (getFileSaveLocation { s with saveDialogResult := choice }).1 = none) :=
  ⟨rfl, fun _ => rfl⟩

/-- C9: the three export handlers have empty bodies, so the export
commands and every item selectable through the export quick pick complete
without producing any export or calling any collaborator. -/
theorem export_handlers_no_action :
    exportAsPythonScript = [] ∧ exportToHTML = [] ∧ exportToPDF = [] ∧
    ∀ item ∈ getExportQuickPickItems, item.handler = [] := by
  refine ⟨rfl, rfl, rfl, by decide⟩

/-- Witness for C9 at the Python Script quick-pick item. -/
theorem export_handlers_no_action_witness :
    ExportQuickPickItem.mk "Python Script" true [] ∈ getExportQuickPickItems ∧
    (ExportQuickPickItem.mk "Python Script" true []).handler = [] :=
  ⟨by decide,
   export_handlers_no_action.2.2.2 (ExportQuickPickItem.mk "Python Script" true []) (by decide)⟩

end CommandRegistry
